import Mathlib

/-!
Verification of the Forest client's normalization, caching and event-stream
layer (`src/client/forestClient.ts`).

JSON values produced by `JSON.parse` are modelled by the inductive `JsonValue`.
JavaScript `undefined` (an absent field, a failed property access) is modelled
as `none : Option JsonValue`, while an explicit JSON `null` is the
constructor `JsonValue.null`; the two are distinguished exactly where the
source distinguishes them (the `in` operator) and conflated where it does not
(nullish coalescing, truthiness, the coercion helpers).  JSON numbers are
modelled by `ℚ`; every number obtained from `JSON.parse` is finite, so the
`Number.isFinite` guards of the source always succeed on `num` values.
-/

inductive JsonValue where
  | null
  | bool (b : Bool)
  | num (q : ℚ)
  | str (s : String)
  | arr (items : List JsonValue)
  | obj (fields : List (String × JsonValue))

/-- JavaScript truthiness of a value (`NaN` is excluded by the model: all
`num` values are finite JSON numbers). -/
def jvTruthy : JsonValue → Bool
  | .null => false
  | .bool b => b
  | .num q => if q = 0 then false else true
  | .str s => if s = "" then false else true
  | .arr _ => true
  | .obj _ => true

/-- `typeof v === 'object'` (true for objects, arrays and `null`). -/
def isObjectType : JsonValue → Bool
  | .null => true
  | .obj _ => true
  | .arr _ => true
  | _ => false

/-- `v && typeof v === 'object'`: a truthy object-typed value, i.e. a plain
object or an array (never `null`, which is falsy). -/
def isObjLike : JsonValue → Bool
  | .obj _ => true
  | .arr _ => true
  | _ => false

/-- Property access `v[k]`: `none` models `undefined`.  Objects look the key
up; arrays and strings expose their JavaScript `length` property; every other
access yields `undefined`. -/
def jfield : JsonValue → String → Option JsonValue
  | .obj fs, k => List.lookup k fs
  | .arr xs, k => if k = "length" then some (.num (xs.length : ℚ)) else none
  | .str s, k => if k = "length" then some (.num (s.length : ℚ)) else none
  | _, _ => none

/-- Nullish coalescing `a ?? b` on possibly-undefined values: `null` and
`undefined` both select `b`. -/
def qq (a b : Option JsonValue) : Option JsonValue :=
  match a with
  | some .null => b
  | none => b
  | some v => some v

/-- Optional chaining `a?.k` on a possibly-undefined value. -/
def ochain (a : Option JsonValue) (k : String) : Option JsonValue :=
  match a with
  | some .null => none
  | some v => jfield v k
  | none => none

/-- `a ?? b` on already-coerced values (`number | undefined` and the like),
where `null` can no longer occur. -/
def oq {α : Type} (a b : Option α) : Option α :=
  match a with
  | some x => some x
  | none => b

/-- `coerceNumber`: accept only finite numbers (all modelled numbers are
finite); anything else, including numeric strings, is `undefined`. -/
def coerceNumber : Option JsonValue → Option ℚ
  | some (.num q) => some q
  | _ => none

/-- `coerceString`: strings as-is; finite numbers stringified (`toString`
stands for JavaScript's number-to-string conversion, whose exact rendering no
claim depends on); everything else `undefined`. -/
def coerceString : Option JsonValue → Option String
  | some (.str s) => some s
  | some (.num q) => some (toString q)
  | _ => none

/-- `toRecord`: non-null object-typed values (objects and arrays) pass
through, everything else becomes `undefined`. -/
def toRecord : Option JsonValue → Option JsonValue
  | some (.obj fs) => some (.obj fs)
  | some (.arr xs) => some (.arr xs)
  | _ => none

/-! ## Envelope unwrapping (`unwrap`) -/

/-- The message of the error thrown by `unwrap` on a failed envelope:
`typeof error === 'string' ? error : (message || generic fallback)`.  A truthy
non-string `message` is kept as the raw value handed to `new Error(...)`. -/
def unwrapFailValue (fields : List (String × JsonValue)) : JsonValue :=
  match List.lookup "error" fields with
  | some (.str s) => .str s
  | _ =>
    match List.lookup "message" fields with
    | some v => if jvTruthy v then v else .str "Forest API responded with an error."
    | none => .str "Forest API responded with an error."

/-- `unwrap`: an object containing a `data` key is an envelope; with
`success === false` it throws (`Except.error`), otherwise `data` is returned;
any other payload is returned as-is. -/
def unwrap (payload : JsonValue) : Except JsonValue JsonValue :=
  match payload with
  | .obj fields =>
    match List.lookup "data" fields with
    | some d =>
      match List.lookup "success" fields with
      | some (.bool false) => .error (unwrapFailValue fields)
      | _ => .ok d
    | none => .ok payload
  | _ => .ok payload

/-! ## Stats normalization -/

structure StatsSection where
  total : Option ℚ
  accepted : Option ℚ
  suggested : Option ℚ

/-- `extractSection`: a non-object input yields the empty section; otherwise
`total` comes from `total ?? count ?? length`, `accepted` from `accepted`,
`suggested` from `suggested ?? pending`, each coerced once at the end of the
raw nullish chain.  An array input exposes only its `length`. -/
def extractSection (input : Option JsonValue) : StatsSection :=
  match input with
  | some v =>
    if jvTruthy v && isObjectType v then
      { total := coerceNumber (qq (jfield v "total") (qq (jfield v "count") (jfield v "length")))
        accepted := coerceNumber (jfield v "accepted")
        suggested := coerceNumber (qq (jfield v "suggested") (jfield v "pending")) }
    else { total := none, accepted := none, suggested := none }
  | none => { total := none, accepted := none, suggested := none }

structure StatsRecentNode where
  id : String
  title : Option String
  createdAt : Option String

structure StatsTopTag where
  name : String
  count : Option ℚ

structure StatsTopSuggestion where
  ref : Option String
  sourceId : Option String
  targetId : Option String
  score : Option ℚ

structure StatsHighDegreeNode where
  id : String
  title : Option String
  edgeCount : Option ℚ

/-- `normalizeRecentNodes` over the nodes section. -/
def normalizeRecentNodes (sectionV : Option JsonValue) : List StatsRecentNode :=
  match toRecord sectionV with
  | some record =>
    match jfield record "recent" with
    | some (.arr entries) =>
      entries.filterMap fun entry =>
        if isObjLike entry then
          match coerceString (jfield entry "id") with
          | some id =>
            if id = "" then none
            else some { id := id
                        title := coerceString (jfield entry "title")
                        createdAt := coerceString (qq (jfield entry "createdAt") (jfield entry "updatedAt")) }
          | none => none
        else none
    | _ => []
  | none => []

/-- `normalizeTopTags` over the tags section (`topTags ?? tags`). -/
def normalizeTopTags (sectionV : Option JsonValue) : List StatsTopTag :=
  match toRecord sectionV with
  | some record =>
    match qq (jfield record "topTags") (jfield record "tags") with
    | some (.arr entries) =>
      entries.filterMap fun entry =>
        if isObjLike entry then
          match coerceString (qq (jfield entry "name") (jfield entry "tag")) with
          | some name =>
            if name = "" then none
            else some { name := name, count := coerceNumber (jfield entry "count") }
          | none => none
        else none
    | _ => []
  | none => []

/-- `normalizeTopSuggestions` over the suggestions section
(`topSuggestions ?? suggestions`). -/
def normalizeTopSuggestions (sectionV : Option JsonValue) : List StatsTopSuggestion :=
  match toRecord sectionV with
  | some record =>
    match qq (jfield record "topSuggestions") (jfield record "suggestions") with
    | some (.arr entries) =>
      entries.filterMap fun entry =>
        if isObjLike entry then
          some { ref := coerceString (qq (jfield entry "ref") (qq (jfield entry "id") (jfield entry "code")))
                 sourceId := coerceString (qq (jfield entry "sourceId") (qq (jfield entry "fromId") (jfield entry "sourceNodeId")))
                 targetId := coerceString (qq (jfield entry "targetId") (qq (jfield entry "toId") (jfield entry "targetNodeId")))
                 score := coerceNumber (qq (jfield entry "score") (qq (jfield entry "weight") (jfield entry "similarity"))) }
        else none
    | _ => []
  | none => []

/-- `normalizeHighDegreeNodes` over the top-level `highDegreeNodes` field. -/
def normalizeHighDegreeNodes (input : Option JsonValue) : List StatsHighDegreeNode :=
  match input with
  | some (.arr entries) =>
    entries.filterMap fun entry =>
      if isObjLike entry then
        match coerceString (jfield entry "id") with
        | some id =>
          if id = "" then none
          else some { id := id
                      title := coerceString (jfield entry "title")
                      edgeCount := coerceNumber (qq (jfield entry "edgeCount") (jfield entry "degree")) }
        | none => none
      else none
  | _ => []

structure ForestStatsResponse where
  nodes : Option ℚ
  edges : Option ℚ
  suggestedEdges : Option ℚ
  tags : Option ℚ
  recentCount : Option ℚ
  highScoreSuggestionCount : Option ℚ
  recentNodes : List StatsRecentNode
  topTags : List StatsTopTag
  topSuggestions : List StatsTopSuggestion
  highDegreeNodes : List StatsHighDegreeNode

/-- `normalizeStats` (lines 325–389 of the source): flat fields, then the
`counts` wrapper, then nested sections; the suggestions section defaults to
the edges section when no suggestions-specific source is present. -/
def normalizeStats (source : JsonValue) : ForestStatsResponse :=
  let payload := match toRecord (some source) with
    | some v => v
    | none => .obj []
  let counts := toRecord (jfield payload "counts")
  let nodesRaw := qq (jfield payload "nodes") (ochain counts "nodes")
  let edgesRaw := qq (jfield payload "edges") (ochain counts "edges")
  let tagsRaw := qq (jfield payload "tags") (ochain counts "tags")
  let suggestionsRaw :=
    qq (jfield payload "suggestions")
      (qq (ochain counts "suggestions") (qq (jfield payload "suggestedEdges") edgesRaw))
  let nodesSection := extractSection nodesRaw
  let edgesSection := extractSection edgesRaw
  let tagsSection := extractSection tagsRaw
  let suggestionsSection := extractSection suggestionsRaw
  let nodes :=
    oq (coerceNumber (jfield payload "nodes"))
      (oq (coerceNumber (ochain counts "nodes")) (oq nodesSection.total nodesSection.accepted))
  let edges :=
    oq (coerceNumber (jfield payload "edges"))
      (oq (coerceNumber (ochain counts "edges")) (oq edgesSection.total edgesSection.accepted))
  let tags :=
    oq (coerceNumber (jfield payload "tags"))
      (oq (coerceNumber (ochain counts "tags")) tagsSection.total)
  let suggestedEdges :=
    oq (coerceNumber (jfield payload "suggestedEdges"))
      (oq (coerceNumber (ochain counts "suggested"))
        (oq suggestionsSection.total edgesSection.suggested))
  let nodesRecord := toRecord nodesRaw
  let suggestionsRecord := toRecord suggestionsRaw
  let recentNodes := normalizeRecentNodes nodesRaw
  let topTags := normalizeTopTags tagsRaw
  let topSuggestions := normalizeTopSuggestions suggestionsRaw
  let highDegreeNodes := normalizeHighDegreeNodes (jfield payload "highDegreeNodes")
  let recentCount :=
    oq (coerceNumber (jfield payload "recentCount"))
      (oq (coerceNumber (ochain nodesRecord "recentCount"))
        (if recentNodes.length > 0 then some (recentNodes.length : ℚ) else none))
  let highScoreSuggestionCount :=
    oq (coerceNumber (jfield payload "highScoreCount"))
      (oq (coerceNumber (ochain suggestionsRecord "highScoreCount"))
        (if topSuggestions.length > 0 then some (topSuggestions.length : ℚ) else none))
  { nodes := nodes, edges := edges, suggestedEdges := suggestedEdges, tags := tags
    recentCount := recentCount, highScoreSuggestionCount := highScoreSuggestionCount
    recentNodes := recentNodes, topTags := topTags
    topSuggestions := topSuggestions, highDegreeNodes := highDegreeNodes }

/-! ## Edge records and node detail -/

inductive Direction where
  | inDir
  | outDir
  | bidirectional

/-- `sourceId && sourceId === nodeId` for one endpoint: the resolved id is a
non-empty (truthy) string equal to the queried node id. -/
def matchesNode (x : Option String) (nodeId : String) : Bool :=
  match x with
  | some s => (if s = "" then false else true) && (s == nodeId)
  | none => false

/-- `resolveDirection` (lines 597–613): bidirectional when both endpoints
match the queried node id, `out` when only the source matches, `in` when only
the target matches, `undefined` otherwise.  The queried `nodeId` is a plain
string, so the source's `nodeId ?? ''` is the identity. -/
def resolveDirection (sourceId targetId : Option String) (nodeId : String) : Option Direction :=
  if matchesNode sourceId nodeId && matchesNode targetId nodeId then some .bidirectional
  else if matchesNode sourceId nodeId then some .outDir
  else if matchesNode targetId nodeId then some .inDir
  else none

/-- The nested-object part of `extractTitle`: `value.title`, else
`value.name`, each accepted when a string with non-empty trim. -/
def extractTitleNested (record : JsonValue) (key : String) : Option String :=
  match jfield record key with
  | some v =>
    if isObjLike v then
      match jfield v "title" with
      | some (.str t) =>
        if t.trim.length > 0 then some t
        else
          match jfield v "name" with
          | some (.str n) => if n.trim.length > 0 then some n else none
          | _ => none
      | _ =>
        match jfield v "name" with
        | some (.str n) => if n.trim.length > 0 then some n else none
        | _ => none
    else none
  | none => none

/-- `extractTitle`: the explicit `<key>Title` field when a string with
non-empty trim, else the nested object's `title`/`name`. -/
def extractTitle (record : JsonValue) (key : String) : Option String :=
  match jfield record (key ++ "Title") with
  | some (.str s) => if s.trim.length > 0 then some s else extractTitleNested record key
  | _ => extractTitleNested record key

/-- `record.source`/`record.target` when a truthy object-typed value, then its
`id` property (an array has no `id`, so it contributes `undefined`). -/
def sideObjId (record : JsonValue) (key : String) : Option JsonValue :=
  match jfield record key with
  | some (.obj fs) => List.lookup "id" fs
  | some (.arr _) => none
  | _ => none

structure ForestEdgeRecord where
  id : Option String
  sourceId : Option String
  targetId : Option String
  direction : Option Direction
  score : Option ℚ
  status : Option String
  label : Option String
  description : Option String
  toTitle : Option String
  fromTitle : Option String

/-- `normalizeEdgeRecord` (lines 515–559): `null` for non-object inputs;
endpoint ids from the legacy alias chains, direction relative to the queried
node id, score from `score`/`weight`/`similarity`. -/
def normalizeEdgeRecord (edge : JsonValue) (nodeId : String) : Option ForestEdgeRecord :=
  if isObjLike edge then
    let sourceId := coerceString
      (qq (jfield edge "sourceId")
        (qq (jfield edge "fromId") (qq (jfield edge "fromNodeId") (sideObjId edge "source"))))
    let targetId := coerceString
      (qq (jfield edge "targetId")
        (qq (jfield edge "toId") (qq (jfield edge "toNodeId") (sideObjId edge "target"))))
    some { id := coerceString (jfield edge "id")
           sourceId := sourceId
           targetId := targetId
           direction := resolveDirection sourceId targetId nodeId
           score := oq (coerceNumber (jfield edge "score"))
             (oq (coerceNumber (jfield edge "weight")) (coerceNumber (jfield edge "similarity")))
           status := coerceString (qq (jfield edge "status") (qq (jfield edge "state") (jfield edge "kind")))
           label := coerceString (qq (jfield edge "label") (qq (jfield edge "name") (jfield edge "description")))
           description := coerceString (jfield edge "description")
           toTitle := oq (extractTitle edge "target") (extractTitle edge "to")
           fromTitle := oq (extractTitle edge "source") (extractTitle edge "from") }
  else none

structure EdgeCollection where
  items : List ForestEdgeRecord
  total : Option ℚ

/-- `normalizeEdgeCollection` (lines 483–513): a plain array, an
`{items: [...]}` wrapper (with its optional `total`), or an `{edges: [...]}`
wrapper; anything else yields the empty collection with no total. -/
def normalizeEdgeCollection (input : Option JsonValue) (nodeId : String) : EdgeCollection :=
  match input with
  | some v =>
    if jvTruthy v then
      match v with
      | .arr xs =>
        let items := xs.filterMap fun e => normalizeEdgeRecord e nodeId
        { items := items, total := some (items.length : ℚ) }
      | .obj fs =>
        match List.lookup "items" fs with
        | some (.arr xs) =>
          let items := xs.filterMap fun e => normalizeEdgeRecord e nodeId
          { items := items
            total := oq (coerceNumber (List.lookup "total" fs)) (some (items.length : ℚ)) }
        | _ =>
          match List.lookup "edges" fs with
          | some (.arr xs) =>
            let items := xs.filterMap fun e => normalizeEdgeRecord e nodeId
            { items := items, total := some (items.length : ℚ) }
          | _ => { items := [], total := none }
      | _ => { items := [], total := none }
    else { items := [], total := none }
  | none => { items := [], total := none }

/-- `this.coerceString(source.id) || nodeId`: the payload id wins only when it
coerces to a truthy (non-empty) string. -/
def detailComputedId (source : JsonValue) (nodeId : String) : String :=
  match coerceString (jfield source "id") with
  | some s => if s = "" then nodeId else s
  | none => nodeId

/-- `source.suggestions ?? (source.edges)?.suggested`: the raw value the first
suggestion extraction runs on. -/
def detailSugRaw (source : JsonValue) : Option JsonValue :=
  qq (jfield source "suggestions") (ochain (jfield source "edges") "suggested")

/-- `source.edges && typeof source.edges === 'object'`. -/
def edgesIsObjLike (source : JsonValue) : Bool :=
  match jfield source "edges" with
  | some v => isObjLike v
  | none => false

structure DetailAcc where
  edges : List ForestEdgeRecord
  edgesTotal : Option ℚ
  suggestions : List ForestEdgeRecord
  suggestionsTotal : Option ℚ

/-- The mutation block of `normalizeNodeDetail` (lines 439–450): when the
extracted edges are empty and `source.edges` is an object, re-extract from its
`accepted` list, and — when the suggestions are also still empty — from its
`suggested` list. -/
def detailStep1 (source : JsonValue) (id : String) (acc : DetailAcc) : DetailAcc :=
  if acc.edges.length == 0 && edgesIsObjLike source then
    let acceptedCollection := normalizeEdgeCollection (ochain (jfield source "edges") "accepted") id
    if acc.suggestions.length == 0 then
      let suggestedCollection := normalizeEdgeCollection (ochain (jfield source "edges") "suggested") id
      { edges := acceptedCollection.items
        edgesTotal := oq acc.edgesTotal acceptedCollection.total
        suggestions := suggestedCollection.items
        suggestionsTotal := oq acc.suggestionsTotal suggestedCollection.total }
    else
      { edges := acceptedCollection.items
        edgesTotal := oq acc.edgesTotal acceptedCollection.total
        suggestions := acc.suggestions
        suggestionsTotal := acc.suggestionsTotal }
  else acc

/-- The legacy fallback block of `normalizeNodeDetail` (lines 452–461): when
the suggestions are still empty, use the `suggestedEdges` field, but only if
its extraction is non-empty. -/
def detailStep2 (source : JsonValue) (id : String) (acc : DetailAcc) : DetailAcc :=
  if acc.suggestions.length == 0 then
    let fallback := normalizeEdgeCollection (jfield source "suggestedEdges") id
    if fallback.items.length > 0 then
      { acc with suggestions := fallback.items
                 suggestionsTotal := oq acc.suggestionsTotal fallback.total }
    else acc
  else acc

structure ForestNodeDetail where
  id : String
  title : Option String
  body : Option String
  tags : List String
  bodyLength : Option ℚ
  edges : List ForestEdgeRecord
  edgesTotal : ℚ
  suggestions : List ForestEdgeRecord
  suggestionsTotal : ℚ

/-- The state of the edge/suggestion variables of `normalizeNodeDetail` just
before its mutation blocks (lines 422–437): the first extraction of the edge
and suggestion collections together with the explicit totals. -/
def detailAcc0 (source : JsonValue) (id : String) : DetailAcc :=
  let edgesCollection := normalizeEdgeCollection (jfield source "edges") id
  let suggestionsCollection := normalizeEdgeCollection (detailSugRaw source) id
  { edges := edgesCollection.items
    edgesTotal := coerceNumber
      (qq (jfield source "edgesTotal")
        (qq (ochain (jfield source "edges") "total") (Option.map JsonValue.num edgesCollection.total)))
    suggestions := suggestionsCollection.items
    suggestionsTotal := coerceNumber
      (qq (jfield source "suggestionsTotal")
        (qq (jfield source "suggestedEdgesTotal") (Option.map JsonValue.num suggestionsCollection.total))) }

/-- `normalizeNodeDetail` (lines 407–481).  A primitive or `null` payload has
no own properties, which coincides with the source's `payload ?? {}`
defaulting.  The closing `typeof ... !== 'number'` defaults are the `getD`
calls on the accumulated totals. -/
def normalizeNodeDetail (source : JsonValue) (nodeId : String) : ForestNodeDetail :=
  let id := detailComputedId source nodeId
  let acc := detailStep2 source id (detailStep1 source id (detailAcc0 source id))
  { id := id
    title := coerceString (jfield source "title")
    body := coerceString (jfield source "body")
    tags := match jfield source "tags" with
      | some (.arr xs) => xs.filterMap fun v => match v with | .str s => some s | _ => none
      | _ => []
    bodyLength := coerceNumber (qq (jfield source "bodyLength") (jfield source "body_size"))
    edges := acc.edges
    edgesTotal := acc.edgesTotal.getD (acc.edges.length : ℚ)
    suggestions := acc.suggestions
    suggestionsTotal := acc.suggestionsTotal.getD (acc.suggestions.length : ℚ) }

/-! ## List endpoints and the node-id guard -/

structure NodeListResult where
  items : List JsonValue
  total : Option JsonValue
  limit : Option JsonValue
  offset : Option JsonValue

/-- The shape dispatch of `listNodes` (lines 72–93): a bare array, an
`{items: [...]}` shape, or a legacy `{nodes: [...]}` shape; anything else
throws the `/nodes` shape error. -/
def normalizeNodeListPayload (payload : JsonValue) : Except String NodeListResult :=
  match payload with
  | .arr xs => .ok { items := xs, total := none, limit := none, offset := none }
  | p =>
    if jvTruthy p then
      match jfield p "items" with
      | some (.arr xs) =>
        .ok { items := xs, total := jfield p "total", limit := jfield p "limit", offset := jfield p "offset" }
      | _ =>
        match jfield p "nodes" with
        | some (.arr xs) =>
          .ok { items := xs, total := jfield p "total", limit := jfield p "limit", offset := jfield p "offset" }
        | _ => .error "Unexpected response shape from /nodes endpoint"
    else .error "Unexpected response shape from /nodes endpoint"

/-- The shape dispatch of `listTags` (lines 114–123): a bare array, an
`{items: [...]}` shape, or a legacy `{tags: [...]}` shape; anything else
throws the `/tags` shape error. -/
def normalizeTagListPayload (payload : JsonValue) : Except String (List JsonValue) :=
  match payload with
  | .arr xs => .ok xs
  | p =>
    if jvTruthy p then
      match jfield p "items" with
      | some (.arr xs) => .ok xs
      | _ =>
        match jfield p "tags" with
        | some (.arr xs) => .ok xs
        | _ => .error "Unexpected response shape from /tags endpoint"
    else .error "Unexpected response shape from /tags endpoint"

/-- The `if (!id) throw new Error('Node id is required')` guard of
`getNodeContent` and `getNodeDetail`; a string is falsy exactly when empty. -/
def requireNodeId (id : String) : Except String Unit :=
  if id = "" then .error "Node id is required" else .ok ()

/-- `Except.isOk` as a plain Boolean. -/
def exceptOk {ε α : Type} : Except ε α → Bool
  | .ok _ => true
  | .error _ => false

/-- Whether a property holds an array (`Array.isArray(p[k])`). -/
def hasArrayField (v : JsonValue) (k : String) : Bool :=
  match jfield v k with
  | some (.arr _) => true
  | _ => false

/-- `Array.isArray` on the payload itself. -/
def isArrayV : JsonValue → Bool
  | .arr _ => true
  | _ => false

/-! ## Caches

The node-content and node-detail caches are two independent instances of the
same JavaScript `Map` usage pattern (lines 141–151 and 188–198), modelled as
an id-keyed association list: `get` is `Map.get` (an `Option`, a miss is
`none`), `set` is `Map.set`, `evict` is `Map.delete`, `clear` is `Map.clear`.
All four are total functions: none of them can throw. -/

def Cache (V : Type) : Type := List (String × V)

def cacheGet {V : Type} (c : Cache V) (id : String) : Option V :=
  List.lookup id c

def cacheEvict {V : Type} (c : Cache V) (id : String) : Cache V :=
  c.filter fun p => p.1 != id

def cacheSet {V : Type} (c : Cache V) (id : String) (v : V) : Cache V :=
  (id, v) :: cacheEvict c id

def cacheClear {V : Type} (_c : Cache V) : Cache V := []

/-! ## Event-stream state machine

`subscribeToEvents` (lines 200–259) keeps three pieces of state: the `closed`
flag, the pending reconnect timer, and the socket.  External occurrences are
modelled as `StreamStep`s; the observable side effects relevant to the claims
(opening a new connection, scheduling the retry timer, closing or terminating
the socket) are `StreamAction`s. -/

inductive SockState where
  | connecting
  | opened
  | closedS

structure StreamState where
  closed : Bool
  timerPending : Bool
  socket : Option SockState

inductive StreamAction where
  | connectAttempt
  | scheduleReconnect
  | closeGracefully
  | terminateSocket

instance : DecidableEq StreamAction := fun a b => by
  cases a <;> cases b <;> first | exact isTrue rfl | exact isFalse (by intro h; cases h)

inductive StreamStep where
  | sockOpen
  | sockClose
  | timerFire
  | unsub
  | messageFrame

/-- The `connect` closure: a no-op once `closed` is set, otherwise it creates
a fresh socket (one connection attempt). -/
def connectFn (s : StreamState) : StreamState × List StreamAction :=
  if s.closed then (s, [])
  else ({ s with socket := some .connecting }, [.connectAttempt])

/-- One step of the subscription: the `open` handler, the `close` handler
(which schedules the retry timer only while not closed), the retry timer
firing (which runs `connect`), the unsubscribe function, and an incoming
message frame (which never touches the connection state). -/
def streamStep (s : StreamState) : StreamStep → StreamState × List StreamAction
  | .sockOpen => ({ s with socket := some .opened }, [])
  | .sockClose =>
    if s.closed then ({ s with socket := some .closedS }, [])
    else ({ s with socket := some .closedS, timerPending := true }, [.scheduleReconnect])
  | .timerFire =>
    if s.timerPending then connectFn { s with timerPending := false }
    else (s, [])
  | .unsub =>
    ({ s with closed := true, timerPending := false },
      match s.socket with
      | some .opened => [.closeGracefully]
      | some _ => [.terminateSocket]
      | none => [])
  | .messageFrame => (s, [])

/-- Run a sequence of steps, collecting all emitted actions. -/
def runSteps (s : StreamState) : List StreamStep → StreamState × List StreamAction
  | [] => (s, [])
  | st :: rest =>
    let r1 := streamStep s st
    let r2 := runSteps r1.1 rest
    (r2.1, r1.2 ++ r2.2)

/-! ## Message-frame handling -/

/-- The outcome of the `message` handler for one frame: the event is handed to
the subscriber, or the frame is dropped with the error callback invoked (the
caught exception's payload), or the frame is dropped silently with no callback
at all.  The handler has no other outcome: it never re-throws and never
touches the connection. -/
inductive MessageOutcome where
  | delivered (event : JsonValue)
  | errorReported (err : JsonValue)
  | silentlyIgnored

/-- Stand-in for the `SyntaxError` thrown by `JSON.parse` on malformed text. -/
def jsonParseFailure : JsonValue := .str "Unexpected token in JSON"

/-- `event && typeof event === 'object' && typeof event.type === 'string'`. -/
def eventHasStringType (event : JsonValue) : Bool :=
  jvTruthy event && isObjectType event &&
    (match jfield event "type" with
     | some (.str _) => true
     | _ => false)

/-- The `message` handler (lines 220–231): `none` models text on which
`JSON.parse` threw.  A parse failure or an envelope failure is caught and
reported through `onError`; an unwrapped value without a string `type` is
skipped with no callback; otherwise the event is delivered to the handler. -/
def handleMessage (parsed : Option JsonValue) : MessageOutcome :=
  match parsed with
  | none => .errorReported jsonParseFailure
  | some p =>
    match unwrap p with
    | .error e => .errorReported e
    | .ok event =>
      if eventHasStringType event then .delivered event else .silentlyIgnored

/-! ## Helper lemmas -/

theorem lookup_filter_ne {V : Type} (c : List (String × V)) (id : String) :
    List.lookup id (c.filter fun p => p.1 != id) = none := by
  induction c with
  | nil => rfl
  | cons p t ih =>
    by_cases h : p.1 = id
    · simp [List.filter_cons, h, ih]
    · have hb : (id == p.1) = false := beq_eq_false_iff_ne.mpr (Ne.symm h)
      simp [List.filter_cons, h, List.lookup, hb, ih]

/-- C7: for both per-id caches (node content and node detail), reading after a
store returns the stored value, reading after an eviction (or a full clear) is
an absent result, and all operations are total functions — a miss is `none`,
never an error. -/
theorem cache_laws {V : Type} (c : Cache V) (id : String) (v : V) :
    cacheGet (cacheSet c id v) id = some v ∧
    cacheGet (cacheEvict c id) id = none ∧
    cacheGet (cacheClear c) id = none := by
  refine ⟨?_, ?_, rfl⟩
  · simp [cacheGet, cacheSet, List.lookup_cons]
  · exact lookup_filter_ne c id

theorem matchesNode_true_iff (x : Option String) (nid : String) (h : nid ≠ "") :
    matchesNode x nid = true ↔ x = some nid := by
  cases x with
  | none => simp [matchesNode]
  | some s =>
    by_cases hs : s = ""
    · subst hs
      simp [matchesNode]
      exact fun hEq => h hEq.symm
    · simp [matchesNode, hs]

theorem matchesNode_false (x : Option String) (nid : String) (h : nid ≠ "")
    (hx : x ≠ some nid) : matchesNode x nid = false := by
  rcases Bool.eq_false_or_eq_true (matchesNode x nid) with hf | htr
  · exact absurd ((matchesNode_true_iff x nid h).mp hf) hx
  · exact htr

theorem resolveDirection_eq (s t : Option String) (nid : String) (h : nid ≠ "") :
    resolveDirection s t nid =
      (if s = some nid then (if t = some nid then some Direction.bidirectional else some Direction.outDir)
       else if t = some nid then some Direction.inDir else none) := by
  by_cases h1 : s = some nid <;> by_cases h2 : t = some nid
  · subst h1; subst h2
    have e1 : matchesNode (some nid) nid = true := (matchesNode_true_iff _ nid h).mpr rfl
    simp [resolveDirection, e1]
  · subst h1
    have e1 : matchesNode (some nid) nid = true := (matchesNode_true_iff _ nid h).mpr rfl
    have e2 : matchesNode t nid = false := matchesNode_false t nid h h2
    simp [resolveDirection, e1, e2, h2]
  · subst h2
    have e1 : matchesNode s nid = false := matchesNode_false s nid h h1
    have e2 : matchesNode (some nid) nid = true := (matchesNode_true_iff _ nid h).mpr rfl
    simp [resolveDirection, e1, e2, h1]
  · have e1 : matchesNode s nid = false := matchesNode_false s nid h h1
    have e2 : matchesNode t nid = false := matchesNode_false t nid h h2
    simp [resolveDirection, e1, e2, h1, h2]

/-- C3: for a non-empty queried node id, the computed direction is
`bidirectional` exactly when both resolved endpoints equal the id, `out`
exactly when only the source does, `in` exactly when only the target does,
and `undefined` in every other case; and the direction stored on every
normalized edge record is exactly this resolution of its own resolved
endpoint ids. -/
theorem resolveDirection_cases (s t : Option String) (nid : String) (h : nid ≠ "") :
    (resolveDirection s t nid = some Direction.bidirectional ↔ (s = some nid ∧ t = some nid)) ∧
    (resolveDirection s t nid = some Direction.outDir ↔ (s = some nid ∧ t ≠ some nid)) ∧
    (resolveDirection s t nid = some Direction.inDir ↔ (t = some nid ∧ s ≠ some nid)) ∧
    (resolveDirection s t nid = none ↔ (s ≠ some nid ∧ t ≠ some nid)) ∧
    (∀ e r, normalizeEdgeRecord e nid = some r →
      r.direction = resolveDirection r.sourceId r.targetId nid) := by
  rw [resolveDirection_eq s t nid h]
  refine ⟨?_, ?_, ?_, ?_, ?_⟩
  · by_cases h1 : s = some nid <;> by_cases h2 : t = some nid <;> simp [h1, h2]
  · by_cases h1 : s = some nid <;> by_cases h2 : t = some nid <;> simp [h1, h2]
  · by_cases h1 : s = some nid <;> by_cases h2 : t = some nid <;> simp [h1, h2]
  · by_cases h1 : s = some nid <;> by_cases h2 : t = some nid <;> simp [h1, h2]
  · intro e r he
    by_cases hobj : isObjLike e = true
    · simp only [normalizeEdgeRecord, hobj, if_true] at he
      cases he
      rfl
    · simp [normalizeEdgeRecord, hobj] at he

/-- C3 witness: at source `"n1"`, target absent, queried id `"n1"`, the
direction resolves to `out`. -/
theorem resolveDirection_cases_w :
    ("n1" : String) ≠ "" ∧ resolveDirection (some "n1") none "n1" = some Direction.outDir :=
  ⟨by decide,
    ((resolveDirection_cases (some "n1") none "n1" (by decide)).2.1).mpr ⟨rfl, by simp⟩⟩

/-- C5 amended: a frame whose text fails JSON parsing, or whose envelope
signals failure, is dropped and reported through the error callback; a frame
that parses and unwraps but lacks a string `type` field is dropped silently —
it is neither delivered nor reported; a well-formed event is delivered.  In
all cases the handler returns an outcome instead of throwing, and an incoming
frame never changes the connection state of the stream. -/
theorem handleMessage_outcomes (p e m : JsonValue) (s : StreamState) :
    handleMessage none = MessageOutcome.errorReported jsonParseFailure ∧
    (unwrap p = Except.error m → handleMessage (some p) = MessageOutcome.errorReported m) ∧
    (unwrap p = Except.ok e → eventHasStringType e = false →
      handleMessage (some p) = MessageOutcome.silentlyIgnored) ∧
    (unwrap p = Except.ok e → eventHasStringType e = true →
      handleMessage (some p) = MessageOutcome.delivered e) ∧
    streamStep s StreamStep.messageFrame = (s, []) := by
  refine ⟨rfl, ?_, ?_, ?_, rfl⟩
  · intro hu
    simp [handleMessage, hu]
  · intro hu ht
    simp [handleMessage, hu, ht]
  · intro hu ht
    simp [handleMessage, hu, ht]

/-- C5 witness: the frame `{}` parses, unwraps to itself, has no string
`type`, and is silently ignored. -/
theorem handleMessage_outcomes_w :
    unwrap (JsonValue.obj []) = Except.ok (JsonValue.obj []) ∧
    eventHasStringType (JsonValue.obj []) = false ∧
    handleMessage (some (JsonValue.obj [])) = MessageOutcome.silentlyIgnored :=
  ⟨rfl, rfl,
    (handleMessage_outcomes (JsonValue.obj []) (JsonValue.obj []) JsonValue.null
      { closed := false, timerPending := false, socket := none }).2.2.1 rfl rfl⟩

/-- C5 counterexample: the frame `{}` is valid JSON but has no `type` field;
the claim says such a frame's drop is reported via the error callback, but the
handler ignores it silently — no handler call and no error callback. -/
theorem handleMessage_outcomes_cex :
    handleMessage (some (JsonValue.obj [])) = MessageOutcome.silentlyIgnored := rfl

/-- C2 amended: for every payload object that contains a `data` key and
declares `success === false`, unwrapping fails with the envelope's `error`
field when that is a string, else its truthy `message` field, else the
generic fallback message — regardless of what `data` holds.  (Without a
`data` key the payload is not treated as an envelope and is returned as-is,
which is the correction to the claim.) -/
theorem unwrap_success_false (fields : List (String × JsonValue)) (d : JsonValue)
    (hd : List.lookup "data" fields = some d)
    (hs : List.lookup "success" fields = some (JsonValue.bool false)) :
    unwrap (JsonValue.obj fields) = Except.error (unwrapFailValue fields) ∧
    (∀ s, List.lookup "error" fields = some (JsonValue.str s) →
      unwrapFailValue fields = JsonValue.str s) ∧
    (List.lookup "error" fields = none → List.lookup "message" fields = none →
      unwrapFailValue fields = JsonValue.str "Forest API responded with an error.") ∧
    (List.lookup "error" fields = none →
      ∀ m, List.lookup "message" fields = some (JsonValue.str m) → m ≠ "" →
        unwrapFailValue fields = JsonValue.str m) := by
  refine ⟨?_, ?_, ?_, ?_⟩
  · simp [unwrap, hd, hs]
  · intro s herr
    simp [unwrapFailValue, herr]
  · intro h1 h2
    simp [unwrapFailValue, h1, h2]
  · intro h1 m hm hne
    simp [unwrapFailValue, h1, hm, jvTruthy, hne]

/-- C2 witness: the envelope `{data: null, success: false, error: "boom"}`
fails with message `"boom"`. -/
theorem unwrap_success_false_w :
    List.lookup "data"
      [("data", JsonValue.null), ("success", JsonValue.bool false), ("error", JsonValue.str "boom")] =
      some JsonValue.null ∧
    unwrap (JsonValue.obj
      [("data", JsonValue.null), ("success", JsonValue.bool false), ("error", JsonValue.str "boom")]) =
      Except.error (JsonValue.str "boom") := by
  refine ⟨rfl, ?_⟩
  have h := unwrap_success_false
    [("data", JsonValue.null), ("success", JsonValue.bool false), ("error", JsonValue.str "boom")]
    JsonValue.null rfl rfl
  have h2 := h.2.1 "boom" rfl
  exact h2 ▸ h.1

/-- C2 counterexample: the payload `{success: false}` has no `data` key, so —
contrary to the claim's "regardless of whether a data key is present" — the
unwrapping function does not fail: it returns the payload itself. -/
theorem unwrap_success_false_cex :
    unwrap (JsonValue.obj [("success", JsonValue.bool false)]) =
      Except.ok (JsonValue.obj [("success", JsonValue.bool false)]) := rfl

/-- C6 amended: a request method raises a shape error in exactly these cases:
the node id on a content or detail fetch is empty, or a list endpoint's
payload (nodes or tags) is neither an array, nor a truthy value with an
`items` array, nor one with a `nodes`/`tags` array — contrary to the claim,
the two list normalizers do reject unrecognized shapes outright. -/
theorem shape_error_cases (id : String) (p q : JsonValue) :
    (exceptOk (requireNodeId id) = false ↔ id = "") ∧
    (exceptOk (normalizeNodeListPayload p) = true ↔
      (isArrayV p = true ∨ (jvTruthy p = true ∧ hasArrayField p "items" = true) ∨
        (jvTruthy p = true ∧ hasArrayField p "nodes" = true))) ∧
    (exceptOk (normalizeTagListPayload q) = true ↔
      (isArrayV q = true ∨ (jvTruthy q = true ∧ hasArrayField q "items" = true) ∨
        (jvTruthy q = true ∧ hasArrayField q "tags" = true))) := by
  refine ⟨?_, ?_, ?_⟩
  · by_cases h : id = "" <;> simp [requireNodeId, exceptOk, h]
  · cases p with
    | arr xs => simp [normalizeNodeListPayload, exceptOk, isArrayV]
    | obj fs =>
      simp only [normalizeNodeListPayload, exceptOk, isArrayV, hasArrayField, jfield, jvTruthy]
      rcases h1 : List.lookup "items" fs with _ | v1
      · rcases h2 : List.lookup "nodes" fs with _ | v2
        · simp
        · cases v2 <;> simp
      · cases v1 with
        | arr ys => simp
        | _ =>
          rcases h2 : List.lookup "nodes" fs with _ | v2
          · simp
          · cases v2 <;> simp
    | _ => simp [normalizeNodeListPayload, exceptOk, isArrayV, hasArrayField, jfield, jvTruthy]
  · cases q with
    | arr xs => simp [normalizeTagListPayload, exceptOk, isArrayV]
    | obj fs =>
      simp only [normalizeTagListPayload, exceptOk, isArrayV, hasArrayField, jfield, jvTruthy]
      rcases h1 : List.lookup "items" fs with _ | v1
      · rcases h2 : List.lookup "tags" fs with _ | v2
        · simp
        · cases v2 <;> simp
      · cases v1 with
        | arr ys => simp
        | _ =>
          rcases h2 : List.lookup "tags" fs with _ | v2
          · simp
          · cases v2 <;> simp
    | _ => simp [normalizeTagListPayload, exceptOk, isArrayV, hasArrayField, jfield, jvTruthy]

/-- C6 counterexample: an object payload with neither an `items` nor a
`nodes`/`tags` array is rejected with a shape error by the list endpoints,
even though no identifying field is involved — refuting "the only case". -/
theorem shape_error_cases_cex :
    normalizeNodeListPayload (JsonValue.obj []) =
      Except.error "Unexpected response shape from /nodes endpoint" ∧
    normalizeTagListPayload (JsonValue.num 3) =
      Except.error "Unexpected response shape from /tags endpoint" :=
  ⟨rfl, rfl⟩

theorem streamStep_closed_preserved (s : StreamState) (st : StreamStep)
    (h : s.closed = true) :
    (streamStep s st).1.closed = true ∧
    StreamAction.connectAttempt ∉ (streamStep s st).2 := by
  cases st with
  | sockOpen => simp [streamStep, h]
  | sockClose => simp [streamStep, h]
  | timerFire =>
    by_cases ht : s.timerPending = true
    · simp [streamStep, ht, connectFn, h]
    · simp [streamStep, ht, h]
  | unsub =>
    refine ⟨by simp [streamStep], ?_⟩
    simp only [streamStep]
    rcases s.socket with _ | sk
    · simp
    · cases sk <;> simp
  | messageFrame => simp [streamStep, h]

theorem runSteps_closed_no_connect (steps : List StreamStep) :
    ∀ (s : StreamState), s.closed = true →
      (runSteps s steps).1.closed = true ∧
      StreamAction.connectAttempt ∉ (runSteps s steps).2 := by
  induction steps with
  | nil => intro s h; simpa [runSteps] using h
  | cons st rest ih =>
    intro s h
    have h1 := streamStep_closed_preserved s st h
    have h2 := ih (streamStep s st).1 h1.1
    refine ⟨h2.1, ?_⟩
    simp only [runSteps, List.mem_append]
    intro hc
    rcases hc with hc | hc
    · exact h1.2 hc
    · exact h2.2 hc

/-- C8: while the subscription is not closed, an unexpected close schedules
exactly one reconnect (and a pending retry timer fires into exactly one
connection attempt after the retry delay); once the subscription is closed no
close schedules anything; and `unsubscribe` marks the subscription closed,
cancels any pending reconnect timer, closes the socket gracefully when open
and terminates it otherwise — after which no sequence of further steps can
ever produce another connection attempt. -/
theorem eventStream_reconnect_unsub (s : StreamState) (steps : List StreamStep) :
    (s.closed = false →
      streamStep s StreamStep.sockClose =
        ({ s with socket := some SockState.closedS, timerPending := true },
          [StreamAction.scheduleReconnect])) ∧
    (s.closed = true → (streamStep s StreamStep.sockClose).2 = []) ∧
    (s.closed = false → s.timerPending = true →
      (streamStep s StreamStep.timerFire).2 = [StreamAction.connectAttempt]) ∧
    ((streamStep s StreamStep.unsub).1.closed = true ∧
      (streamStep s StreamStep.unsub).1.timerPending = false) ∧
    (s.socket = some SockState.opened →
      (streamStep s StreamStep.unsub).2 = [StreamAction.closeGracefully]) ∧
    (s.socket = some SockState.connecting →
      (streamStep s StreamStep.unsub).2 = [StreamAction.terminateSocket]) ∧
    (s.socket = some SockState.closedS →
      (streamStep s StreamStep.unsub).2 = [StreamAction.terminateSocket]) ∧
    StreamAction.connectAttempt ∉ (runSteps (streamStep s StreamStep.unsub).1 steps).2 := by
  refine ⟨?_, ?_, ?_, ⟨?_, ?_⟩, ?_, ?_, ?_, ?_⟩
  · intro h; simp [streamStep, h]
  · intro h; simp [streamStep, h]
  · intro h ht; simp [streamStep, ht, connectFn, h]
  · simp [streamStep]
  · simp [streamStep]
  · intro h; simp [streamStep, h]
  · intro h; simp [streamStep, h]
  · intro h; simp [streamStep, h]
  · exact (runSteps_closed_no_connect steps (streamStep s StreamStep.unsub).1
      (by simp [streamStep])).2

/-- C8 witness: from a live open subscription, an unexpected close emits
exactly the reconnect scheduling, and after unsubscribing, a further close and
timer expiry produce no connection attempt. -/
theorem eventStream_reconnect_unsub_w :
    (StreamState.mk false false (some SockState.opened)).closed = false ∧
    (streamStep (StreamState.mk false false (some SockState.opened)) StreamStep.sockClose =
      (StreamState.mk false true (some SockState.closedS), [StreamAction.scheduleReconnect])) ∧
    StreamAction.connectAttempt ∉
      (runSteps (streamStep (StreamState.mk false false (some SockState.opened)) StreamStep.unsub).1
        [StreamStep.sockClose, StreamStep.timerFire]).2 := by
  refine ⟨rfl, ?_, ?_⟩
  · exact (eventStream_reconnect_unsub (StreamState.mk false false (some SockState.opened))
      [StreamStep.sockClose, StreamStep.timerFire]).1 rfl
  · exact (eventStream_reconnect_unsub (StreamState.mk false false (some SockState.opened))
      [StreamStep.sockClose, StreamStep.timerFire]).2.2.2.2.2.2.2

/-- C1 amended: on a payload `{nodes:{total:T,...}, edges:{accepted:A,
suggested:S, total:A+S}, tags:{total:Tg}}` with no flat count fields, no
`counts` wrapper and no `suggestions` key, `normalizeStats` yields
`nodes = T`, `edges = A+S`, `tags = Tg`, and `suggestedEdges = A+S` — not `S`:
with no suggestions-specific source the edges section itself serves as the
suggestions section, and its `total` takes precedence over its `suggested`
count. -/
theorem normalizeStats_nested_shape (pf nf ef tf : List (String × JsonValue)) (T A S Tg : ℚ)
    (hc : List.lookup "counts" pf = none)
    (hsug : List.lookup "suggestions" pf = none)
    (hse : List.lookup "suggestedEdges" pf = none)
    (hn : List.lookup "nodes" pf = some (JsonValue.obj nf))
    (hnt : List.lookup "total" nf = some (JsonValue.num T))
    (he : List.lookup "edges" pf = some (JsonValue.obj ef))
    (het : List.lookup "total" ef = some (JsonValue.num (A + S)))
    (hea : List.lookup "accepted" ef = some (JsonValue.num A))
    (hes : List.lookup "suggested" ef = some (JsonValue.num S))
    (ht : List.lookup "tags" pf = some (JsonValue.obj tf))
    (htt : List.lookup "total" tf = some (JsonValue.num Tg)) :
    (normalizeStats (JsonValue.obj pf)).nodes = some T ∧
    (normalizeStats (JsonValue.obj pf)).edges = some (A + S) ∧
    (normalizeStats (JsonValue.obj pf)).suggestedEdges = some (A + S) ∧
    (normalizeStats (JsonValue.obj pf)).tags = some Tg := by
  refine ⟨?_, ?_, ?_, ?_⟩ <;>
    simp [normalizeStats, toRecord, jfield, ochain, qq, oq, extractSection, coerceNumber,
      jvTruthy, isObjectType, hc, hsug, hse, hn, hnt, he, het, hea, hes, ht, htt]

/-- C1 witness: a concrete nested payload with `T = 10`, `A = 3`, `S = 4`,
`Tg = 2` yields `nodes = 10` and `edges = 3 + 4`. -/
theorem normalizeStats_nested_shape_w :
    List.lookup "counts"
      [("nodes", JsonValue.obj [("total", JsonValue.num 10)]),
       ("edges", JsonValue.obj
         [("accepted", JsonValue.num 3), ("suggested", JsonValue.num 4), ("total", JsonValue.num (3 + 4))]),
       ("tags", JsonValue.obj [("total", JsonValue.num 2)])] = none ∧
    (normalizeStats (JsonValue.obj
      [("nodes", JsonValue.obj [("total", JsonValue.num 10)]),
       ("edges", JsonValue.obj
         [("accepted", JsonValue.num 3), ("suggested", JsonValue.num 4), ("total", JsonValue.num (3 + 4))]),
       ("tags", JsonValue.obj [("total", JsonValue.num 2)])])).nodes = some 10 ∧
    (normalizeStats (JsonValue.obj
      [("nodes", JsonValue.obj [("total", JsonValue.num 10)]),
       ("edges", JsonValue.obj
         [("accepted", JsonValue.num 3), ("suggested", JsonValue.num 4), ("total", JsonValue.num (3 + 4))]),
       ("tags", JsonValue.obj [("total", JsonValue.num 2)])])).edges = some (3 + 4) := by
  refine ⟨rfl, ?_, ?_⟩
  · exact (normalizeStats_nested_shape
      [("nodes", JsonValue.obj [("total", JsonValue.num 10)]),
       ("edges", JsonValue.obj
         [("accepted", JsonValue.num 3), ("suggested", JsonValue.num 4), ("total", JsonValue.num (3 + 4))]),
       ("tags", JsonValue.obj [("total", JsonValue.num 2)])]
      [("total", JsonValue.num 10)]
      [("accepted", JsonValue.num 3), ("suggested", JsonValue.num 4), ("total", JsonValue.num (3 + 4))]
      [("total", JsonValue.num 2)]
      10 3 4 2 rfl rfl rfl rfl rfl rfl rfl rfl rfl rfl rfl).1
  · exact (normalizeStats_nested_shape
      [("nodes", JsonValue.obj [("total", JsonValue.num 10)]),
       ("edges", JsonValue.obj
         [("accepted", JsonValue.num 3), ("suggested", JsonValue.num 4), ("total", JsonValue.num (3 + 4))]),
       ("tags", JsonValue.obj [("total", JsonValue.num 2)])]
      [("total", JsonValue.num 10)]
      [("accepted", JsonValue.num 3), ("suggested", JsonValue.num 4), ("total", JsonValue.num (3 + 4))]
      [("total", JsonValue.num 2)]
      10 3 4 2 rfl rfl rfl rfl rfl rfl rfl rfl rfl rfl rfl).2.1

/-- C1 counterexample: on `{nodes:{total:5}, edges:{accepted:1, suggested:2,
total:3}, tags:{total:4}}` (no suggestions key), the claim demands
`suggestedEdges = 2` but `normalizeStats` returns `suggestedEdges = 3` (the
edges total); the other three counts come out as claimed. -/
theorem normalizeStats_nested_shape_cex :
    (normalizeStats (JsonValue.obj
      [("nodes", JsonValue.obj [("total", JsonValue.num 5)]),
       ("edges", JsonValue.obj
         [("accepted", JsonValue.num 1), ("suggested", JsonValue.num 2), ("total", JsonValue.num 3)]),
       ("tags", JsonValue.obj [("total", JsonValue.num 4)])])).suggestedEdges = some 3 ∧
    (normalizeStats (JsonValue.obj
      [("nodes", JsonValue.obj [("total", JsonValue.num 5)]),
       ("edges", JsonValue.obj
         [("accepted", JsonValue.num 1), ("suggested", JsonValue.num 2), ("total", JsonValue.num 3)]),
       ("tags", JsonValue.obj [("total", JsonValue.num 4)])])).suggestedEdges ≠ some 2 ∧
    (normalizeStats (JsonValue.obj
      [("nodes", JsonValue.obj [("total", JsonValue.num 5)]),
       ("edges", JsonValue.obj
         [("accepted", JsonValue.num 1), ("suggested", JsonValue.num 2), ("total", JsonValue.num 3)]),
       ("tags", JsonValue.obj [("total", JsonValue.num 4)])])).nodes = some 5 ∧
    (normalizeStats (JsonValue.obj
      [("nodes", JsonValue.obj [("total", JsonValue.num 5)]),
       ("edges", JsonValue.obj
         [("accepted", JsonValue.num 1), ("suggested", JsonValue.num 2), ("total", JsonValue.num 3)]),
       ("tags", JsonValue.obj [("total", JsonValue.num 4)])])).tags = some 4 := by
  refine ⟨rfl, ?_, rfl, rfl⟩
  intro hcontra
  rw [show (normalizeStats (JsonValue.obj
      [("nodes", JsonValue.obj [("total", JsonValue.num 5)]),
       ("edges", JsonValue.obj
         [("accepted", JsonValue.num 1), ("suggested", JsonValue.num 2), ("total", JsonValue.num 3)]),
       ("tags", JsonValue.obj [("total", JsonValue.num 4)])])).suggestedEdges = some 3 from rfl]
    at hcontra
  simp at hcontra

/-- C10 amended: in `extractSection`, the `count` (then `length`) alias backs
`total` exactly when the `total` field is absent or null — the fallback runs
on the raw nullish chain before number coercion, so a present but non-numeric
`total` shadows the aliases rather than yielding to them; likewise `pending`
backs `suggested` when `suggested` is absent or null; and consequently
`normalizeStats` on `{nodes:{count:5}}` reports 5 nodes. -/
theorem extractSection_aliases (fs : List (String × JsonValue))
    (htot : List.lookup "total" fs = none ∨ List.lookup "total" fs = some JsonValue.null) :
    (extractSection (some (JsonValue.obj fs))).total =
      coerceNumber (qq (List.lookup "count" fs) (List.lookup "length" fs)) ∧
    ((List.lookup "suggested" fs = none ∨ List.lookup "suggested" fs = some JsonValue.null) →
      (extractSection (some (JsonValue.obj fs))).suggested =
        coerceNumber (List.lookup "pending" fs)) ∧
    (normalizeStats (JsonValue.obj [("nodes", JsonValue.obj [("count", JsonValue.num 5)])])).nodes
      = some 5 := by
  refine ⟨?_, ?_, rfl⟩
  · rcases htot with h | h <;>
      simp [extractSection, jvTruthy, isObjectType, jfield, qq, h]
  · intro hsg
    rcases hsg with h | h <;>
      simp [extractSection, jvTruthy, isObjectType, jfield, qq, h]

/-- C10 witness: a section `{count: 7}` (no total field) has total 7. -/
theorem extractSection_aliases_w :
    List.lookup "total" [("count", JsonValue.num 7)] = none ∧
    (extractSection (some (JsonValue.obj [("count", JsonValue.num 7)]))).total = some 7 := by
  refine ⟨rfl, ?_⟩
  exact ((extractSection_aliases [("count", JsonValue.num 7)] (Or.inl rfl)).1).trans rfl

/-- C10 counterexample: the section `{total:"x", count:5}` has no
finite-number `total` field, so by the claim its total should be the `count`
value 5; but since `total` is present and non-nullish, the code coerces it
(to `undefined`) and never consults `count`: the extracted total is absent,
and `normalizeStats` on `{nodes:{total:"x", count:5}}` reports no node
count. -/
theorem extractSection_aliases_cex :
    (extractSection (some (JsonValue.obj
      [("total", JsonValue.str "x"), ("count", JsonValue.num 5)]))).total = none ∧
    (normalizeStats (JsonValue.obj [("nodes", JsonValue.obj
      [("total", JsonValue.str "x"), ("count", JsonValue.num 5)])])).nodes = none :=
  ⟨rfl, rfl⟩

theorem normalizeNodeDetail_id_eq (p : JsonValue) (nid : String) :
    (normalizeNodeDetail p nid).id = detailComputedId p nid := rfl

/-- C9 amended: the detail's id is taken from the `coerceString` image of the
payload's id — kept exactly when that image is a non-empty string, with the
request id used otherwise.  Exhaustively over the payload id's shape: a
string id is kept unless empty (the `||` fallback treats the empty string
like absence); an absent id, a `null`, boolean, array or object id (which
`coerceString` rejects) all fall back to the request id; a finite numeric id
is kept in its stringified form whenever that form is non-empty. -/
theorem normalizeNodeDetail_id_fallback (p : JsonValue) (nid s : String) :
    (∀ c, coerceString (jfield p "id") = some c →
      (normalizeNodeDetail p nid).id = if c = "" then nid else c) ∧
    (coerceString (jfield p "id") = none → (normalizeNodeDetail p nid).id = nid) ∧
    (jfield p "id" = some (JsonValue.str s) →
      (normalizeNodeDetail p nid).id = if s = "" then nid else s) ∧
    (jfield p "id" = none → (normalizeNodeDetail p nid).id = nid) ∧
    (jfield p "id" = some JsonValue.null → (normalizeNodeDetail p nid).id = nid) ∧
    (∀ b, jfield p "id" = some (JsonValue.bool b) → (normalizeNodeDetail p nid).id = nid) ∧
    (∀ xs, jfield p "id" = some (JsonValue.arr xs) → (normalizeNodeDetail p nid).id = nid) ∧
    (∀ fs, jfield p "id" = some (JsonValue.obj fs) → (normalizeNodeDetail p nid).id = nid) ∧
    (∀ q, jfield p "id" = some (JsonValue.num q) →
      (normalizeNodeDetail p nid).id = if toString q = "" then nid else toString q) := by
  refine ⟨?_, ?_, ?_, ?_, ?_, ?_, ?_, ?_, ?_⟩
  · intro c h
    rw [normalizeNodeDetail_id_eq]
    simp [detailComputedId, h]
  · intro h
    rw [normalizeNodeDetail_id_eq]
    simp [detailComputedId, h]
  · intro h
    rw [normalizeNodeDetail_id_eq]
    simp [detailComputedId, coerceString, h]
  · intro h
    rw [normalizeNodeDetail_id_eq]
    simp [detailComputedId, coerceString, h]
  · intro h
    rw [normalizeNodeDetail_id_eq]
    simp [detailComputedId, coerceString, h]
  · intro b h
    rw [normalizeNodeDetail_id_eq]
    simp [detailComputedId, coerceString, h]
  · intro xs h
    rw [normalizeNodeDetail_id_eq]
    simp [detailComputedId, coerceString, h]
  · intro fs h
    rw [normalizeNodeDetail_id_eq]
    simp [detailComputedId, coerceString, h]
  · intro q h
    rw [normalizeNodeDetail_id_eq]
    simp [detailComputedId, coerceString, h]

/-- C9 witness: a payload carrying id `"abc"` keeps it regardless of the
request id `"n"`, and a payload carrying a `null` id (non-coercible) falls
back to the request id `"n2"`. -/
theorem normalizeNodeDetail_id_fallback_w :
    jfield (JsonValue.obj [("id", JsonValue.str "abc")]) "id" = some (JsonValue.str "abc") ∧
    (normalizeNodeDetail (JsonValue.obj [("id", JsonValue.str "abc")]) "n").id = "abc" ∧
    jfield (JsonValue.obj [("id", JsonValue.null)]) "id" = some JsonValue.null ∧
    (normalizeNodeDetail (JsonValue.obj [("id", JsonValue.null)]) "n2").id = "n2" := by
  refine ⟨rfl, ?_, rfl, ?_⟩
  · have h := (normalizeNodeDetail_id_fallback
      (JsonValue.obj [("id", JsonValue.str "abc")]) "n" "abc").2.2.1 rfl
    simpa using h
  · exact (normalizeNodeDetail_id_fallback
      (JsonValue.obj [("id", JsonValue.null)]) "n2" "").2.2.2.2.1 rfl

/-- C9 counterexample: the payload `{id: ""}` carries an id (the empty
string), yet the normalized detail's id is the request id `"n1"`, not the
payload's — the fallback is on falsiness, not absence. -/
theorem normalizeNodeDetail_id_fallback_cex :
    jfield (JsonValue.obj [("id", JsonValue.str "")]) "id" = some (JsonValue.str "") ∧
    (normalizeNodeDetail (JsonValue.obj [("id", JsonValue.str "")]) "n1").id = "n1" ∧
    ("n1" : String) ≠ "" :=
  ⟨rfl, rfl, by decide⟩

theorem normalizeNodeDetail_suggestions_eq (p : JsonValue) (nid : String) :
    (normalizeNodeDetail p nid).suggestions =
      (detailStep2 p (detailComputedId p nid)
        (detailStep1 p (detailComputedId p nid)
          (detailAcc0 p (detailComputedId p nid)))).suggestions := rfl

theorem detailAcc0_suggestions (p : JsonValue) (cid : String) :
    (detailAcc0 p cid).suggestions = (normalizeEdgeCollection (detailSugRaw p) cid).items := rfl

theorem detailAcc0_edges (p : JsonValue) (cid : String) :
    (detailAcc0 p cid).edges = (normalizeEdgeCollection (jfield p "edges") cid).items := rfl

theorem detailStep1_suggestions_ne (p : JsonValue) (cid : String) (acc : DetailAcc)
    (h : acc.suggestions ≠ []) :
    (detailStep1 p cid acc).suggestions = acc.suggestions := by
  unfold detailStep1
  split
  · split
    · next hcond =>
        exfalso
        apply h
        have hz : acc.suggestions.length = 0 := by simpa using hcond
        exact List.length_eq_zero.mp hz
    · rfl
  · rfl

theorem detailStep2_suggestions_ne (p : JsonValue) (cid : String) (acc : DetailAcc)
    (h : acc.suggestions ≠ []) :
    detailStep2 p cid acc = acc := by
  unfold detailStep2
  split
  · next hcond =>
      exfalso
      exact h (List.length_eq_zero.mp (by simpa using hcond))
  · rfl

theorem normalizeEdgeRecord_objLike (e : JsonValue) (n : String) (h : isObjLike e = true) :
    ∃ r, normalizeEdgeRecord e n = some r := by
  unfold normalizeEdgeRecord
  rw [if_pos h]
  exact ⟨_, rfl⟩

theorem normalizeNodeDetail_edges_eq (p : JsonValue) (nid : String) :
    (normalizeNodeDetail p nid).edges =
      (detailStep2 p (detailComputedId p nid)
        (detailStep1 p (detailComputedId p nid)
          (detailAcc0 p (detailComputedId p nid)))).edges := rfl

/-- C4 amended: the concrete scenario holds — a payload whose `edges` object
carries a 2-element `accepted` array and a 1-element `suggested` array (and
nothing else) normalizes to 2 edges, 1 suggestion, `edgesTotal = 2`,
`suggestionsTotal = 1`.  The general suggestion fallback, however, is not a
plain first-non-empty chain: (1) a non-empty extraction from
`suggestions ?? edges.suggested` always wins; (2) the nested
`edges.suggested` section is re-consulted only when both that first
extraction and the extracted edges list are empty and `edges` is an object —
then a non-empty nested result wins, else a non-empty legacy `suggestedEdges`
extraction, else the result is empty; (3) in every other case with an empty
first extraction the nested section is skipped and only the legacy
`suggestedEdges` field (when non-empty) is used. -/
theorem normalizeNodeDetail_suggestion_fallback (nid : String) (e1 e2 e3 p : JsonValue)
    (h1 : isObjLike e1 = true) (h2 : isObjLike e2 = true) (h3 : isObjLike e3 = true) :
    ((normalizeNodeDetail (JsonValue.obj
        [("edges", JsonValue.obj
          [("accepted", JsonValue.arr [e1, e2]), ("suggested", JsonValue.arr [e3])])])
        nid).edges.length = 2 ∧
     (normalizeNodeDetail (JsonValue.obj
        [("edges", JsonValue.obj
          [("accepted", JsonValue.arr [e1, e2]), ("suggested", JsonValue.arr [e3])])])
        nid).suggestions.length = 1 ∧
     (normalizeNodeDetail (JsonValue.obj
        [("edges", JsonValue.obj
          [("accepted", JsonValue.arr [e1, e2]), ("suggested", JsonValue.arr [e3])])])
        nid).edgesTotal = 2 ∧
     (normalizeNodeDetail (JsonValue.obj
        [("edges", JsonValue.obj
          [("accepted", JsonValue.arr [e1, e2]), ("suggested", JsonValue.arr [e3])])])
        nid).suggestionsTotal = 1) ∧
    ((normalizeEdgeCollection (detailSugRaw p) (detailComputedId p nid)).items ≠ [] →
      (normalizeNodeDetail p nid).suggestions =
        (normalizeEdgeCollection (detailSugRaw p) (detailComputedId p nid)).items) ∧
    ((normalizeEdgeCollection (detailSugRaw p) (detailComputedId p nid)).items = [] →
      (normalizeEdgeCollection (jfield p "edges") (detailComputedId p nid)).items = [] →
      edgesIsObjLike p = true →
      (normalizeNodeDetail p nid).suggestions =
        (if (normalizeEdgeCollection (ochain (jfield p "edges") "suggested")
              (detailComputedId p nid)).items.isEmpty then
           (if (normalizeEdgeCollection (jfield p "suggestedEdges")
                 (detailComputedId p nid)).items.isEmpty then []
            else (normalizeEdgeCollection (jfield p "suggestedEdges")
                 (detailComputedId p nid)).items)
         else (normalizeEdgeCollection (ochain (jfield p "edges") "suggested")
                 (detailComputedId p nid)).items)) ∧
    ((normalizeEdgeCollection (detailSugRaw p) (detailComputedId p nid)).items = [] →
      ((normalizeEdgeCollection (jfield p "edges") (detailComputedId p nid)).items ≠ [] ∨
        edgesIsObjLike p = false) →
      (normalizeNodeDetail p nid).suggestions =
        (if (normalizeEdgeCollection (jfield p "suggestedEdges")
              (detailComputedId p nid)).items.isEmpty then []
         else (normalizeEdgeCollection (jfield p "suggestedEdges")
              (detailComputedId p nid)).items)) := by
  refine ⟨?_, ?_, ?_, ?_⟩
  · obtain ⟨r1, hr1⟩ := normalizeEdgeRecord_objLike e1 nid h1
    obtain ⟨r2, hr2⟩ := normalizeEdgeRecord_objLike e2 nid h2
    obtain ⟨r3, hr3⟩ := normalizeEdgeRecord_objLike e3 nid h3
    refine ⟨?_, ?_, ?_, ?_⟩ <;>
      simp [normalizeNodeDetail, detailAcc0, detailStep1, detailStep2, detailComputedId,
        detailSugRaw, edgesIsObjLike, normalizeEdgeCollection, jfield, List.lookup, qq, ochain,
        oq, coerceNumber, coerceString, jvTruthy, isObjLike, hr1, hr2, hr3]
  · intro hne
    rw [normalizeNodeDetail_suggestions_eq]
    have e1' := detailStep1_suggestions_ne p (detailComputedId p nid)
      (detailAcc0 p (detailComputedId p nid))
      (by rw [detailAcc0_suggestions]; exact hne)
    have e2' := detailStep2_suggestions_ne p (detailComputedId p nid)
      (detailStep1 p (detailComputedId p nid) (detailAcc0 p (detailComputedId p nid)))
      (by rw [e1', detailAcc0_suggestions]; exact hne)
    rw [e2', e1', detailAcc0_suggestions]
  · intro hS0 hE0 hObj
    have hs1 : (detailStep1 p (detailComputedId p nid)
        (detailAcc0 p (detailComputedId p nid))).suggestions =
        (normalizeEdgeCollection (ochain (jfield p "edges") "suggested")
          (detailComputedId p nid)).items := by
      simp [detailStep1, detailAcc0_edges, detailAcc0_suggestions, hE0, hS0, hObj]
    rw [normalizeNodeDetail_suggestions_eq]
    by_cases hN : (normalizeEdgeCollection (ochain (jfield p "edges") "suggested")
        (detailComputedId p nid)).items = []
    · by_cases hL : (normalizeEdgeCollection (jfield p "suggestedEdges")
          (detailComputedId p nid)).items = []
      · simp [detailStep2, hs1, hN, hL]
      · simp [detailStep2, hs1, hN, hL, List.length_pos]
    · have h2' := detailStep2_suggestions_ne p (detailComputedId p nid)
        (detailStep1 p (detailComputedId p nid) (detailAcc0 p (detailComputedId p nid)))
        (by rw [hs1]; exact hN)
      rw [h2', hs1]
      simp [hN]
  · intro hS0 hdisj
    have hs1 : detailStep1 p (detailComputedId p nid) (detailAcc0 p (detailComputedId p nid)) =
        detailAcc0 p (detailComputedId p nid) := by
      rcases hdisj with hE | hObj
      · simp [detailStep1, detailAcc0_edges, hE, List.length_eq_zero]
      · simp [detailStep1, hObj]
    rw [normalizeNodeDetail_suggestions_eq, hs1]
    by_cases hL : (normalizeEdgeCollection (jfield p "suggestedEdges")
        (detailComputedId p nid)).items = []
    · simp [detailStep2, detailAcc0_suggestions, hS0, hL]
    · simp [detailStep2, detailAcc0_suggestions, hS0, hL, List.length_pos]

/-- C4 witness: three empty objects as edge items give the scenario result
(2 extracted edges). -/
theorem normalizeNodeDetail_suggestion_fallback_w :
    isObjLike (JsonValue.obj []) = true ∧
    (normalizeNodeDetail (JsonValue.obj
      [("edges", JsonValue.obj
        [("accepted", JsonValue.arr [JsonValue.obj [], JsonValue.obj []]),
         ("suggested", JsonValue.arr [JsonValue.obj []])])]) "n").edges.length = 2 ∧
    (normalizeNodeDetail (JsonValue.obj
      [("edges", JsonValue.obj
        [("accepted", JsonValue.arr [JsonValue.obj [], JsonValue.obj []]),
         ("suggested", JsonValue.arr [JsonValue.obj []])])]) "n").suggestionsTotal = 1 := by
  refine ⟨rfl, ?_, ?_⟩
  · exact ((normalizeNodeDetail_suggestion_fallback "n" (JsonValue.obj []) (JsonValue.obj [])
      (JsonValue.obj []) JsonValue.null rfl rfl rfl).1).1
  · exact ((normalizeNodeDetail_suggestion_fallback "n" (JsonValue.obj []) (JsonValue.obj [])
      (JsonValue.obj []) JsonValue.null rfl rfl rfl).1).2.2.2

/-- C4 counterexample: on the payload `{suggestions: [], edges: {edges: [one
edge object], suggested: [one edge object]}}` the top-level suggestions list
is present but empty while the nested `edges.suggested` extraction is
non-empty (one item); the claimed first-non-empty order would pick that item,
but the normalizer returns an empty suggestions list — with non-empty
extracted edges the nested section is never consulted. -/
theorem normalizeNodeDetail_suggestion_fallback_cex :
    (normalizeNodeDetail (JsonValue.obj
      [("suggestions", JsonValue.arr []),
       ("edges", JsonValue.obj
         [("edges", JsonValue.arr [JsonValue.obj [("sourceId", JsonValue.str "a")]]),
          ("suggested", JsonValue.arr [JsonValue.obj [("sourceId", JsonValue.str "b")]])])])
      "n").suggestions = [] ∧
    (normalizeEdgeCollection (ochain (jfield (JsonValue.obj
      [("suggestions", JsonValue.arr []),
       ("edges", JsonValue.obj
         [("edges", JsonValue.arr [JsonValue.obj [("sourceId", JsonValue.str "a")]]),
          ("suggested", JsonValue.arr [JsonValue.obj [("sourceId", JsonValue.str "b")]])])])
      "edges") "suggested") "n").items.length = 1 ∧
    (normalizeEdgeCollection (detailSugRaw (JsonValue.obj
      [("suggestions", JsonValue.arr []),
       ("edges", JsonValue.obj
         [("edges", JsonValue.arr [JsonValue.obj [("sourceId", JsonValue.str "a")]]),
          ("suggested", JsonValue.arr [JsonValue.obj [("sourceId", JsonValue.str "b")]])])])
      ) "n").items.length = 0 :=
  ⟨rfl, rfl, rfl⟩

/-- C6 witness: the empty node id is rejected, and an `{items: []}` payload is
accepted by the nodes list normalizer. -/
theorem shape_error_cases_w :
    exceptOk (requireNodeId "") = false ∧
    exceptOk (normalizeNodeListPayload (JsonValue.obj [("items", JsonValue.arr [])])) = true := by
  constructor
  · exact (shape_error_cases "" JsonValue.null JsonValue.null).1.mpr rfl
  · exact (shape_error_cases "" (JsonValue.obj [("items", JsonValue.arr [])])
      JsonValue.null).2.1.mpr (Or.inr (Or.inl ⟨rfl, rfl⟩))

/-- C7 witness: the cache laws evaluated on a concrete one-entry cache. -/
theorem cache_laws_w :
    cacheGet (cacheSet ([("b", 2)] : Cache Nat) "a" 1) "a" = some 1 ∧
    cacheGet (cacheEvict ([("a", 1)] : Cache Nat) "a") "a" = none :=
  ⟨(cache_laws [("b", 2)] "a" 1).1, (cache_laws [("a", 1)] "a" 1).2.1⟩
